import Mathlib

/-!
Verification of the command-orchestration layer of the ai-painter-live
repository (shared drawing canvas driven by an AI planner).

The main server iteration is src/unnamed/part_000 (it wires up the full
streaming API of src/services/gemini.js); src/unnamed/part_001 is a
near-duplicate iteration whose executeCommands validates draw parameters
inline with centered defaults.  Both are embedded below where a claim
cites them.

JavaScript values are modelled shallowly: finite numbers as rationals,
NaN explicitly (the result of Number(...) on undefined or a non-numeric
string), strings as Lean strings, absent fields as Option.none.  A
string field that would parse as a number in JS is not modelled (the
claims only exercise non-numeric strings), so the string constructor of
JSVal is named nonNumStr to make that restriction explicit.
-/

namespace AIPainter

/-- A raw JavaScript value as the validator sees one of the parameter
fields: a finite number, a string that does not parse as a number
(so that Number(s) is NaN), or undefined (field missing). -/
inductive JSVal where
  | num (q : ℚ)
  | nonNumStr (s : String)
  | undef
deriving DecidableEq, Repr

/-- A JavaScript number: finite or NaN. -/
inductive JSNum where
  | num (q : ℚ)
  | nan
deriving DecidableEq, Repr

/-- JS coercion of a raw value to a number (Number(v)); undefined and
non-numeric strings give NaN. -/
def toJSNum : JSVal → JSNum
  | .num q => .num q
  | .nonNumStr _ => .nan
  | .undef => .nan

/-- The JS idiom `Number(value) || 0` in part_000's clamp: NaN (from a
missing field or non-numeric string) is replaced by 0; a numeric 0 also
yields 0, which coincides. -/
def jsNumberOrZero : JSVal → ℚ
  | .num q => q
  | .nonNumStr _ => 0
  | .undef => 0

/-- JS falsiness of a raw value: undefined, 0 and the empty string are
falsy. -/
def jsFalsy : JSVal → Bool
  | .num q => q = 0
  | .nonNumStr s => s = ""
  | .undef => true

/-- Math.min with NaN propagation. -/
def jsMin : JSNum → JSNum → JSNum
  | .num a, .num b => .num (min a b)
  | _, _ => .nan

/-- Math.max with NaN propagation. -/
def jsMax : JSNum → JSNum → JSNum
  | .num a, .num b => .num (max a b)
  | _, _ => .nan

/-- Math.round: round half toward positive infinity, that is the floor
of q + 1/2.  Written as integer division on the normalized fraction so
that it evaluates by reduction; jsRound_eq below proves it equal to
the floor of q + 1/2. -/
def jsRound (q : ℚ) : ℤ := (2 * q.num + q.den) / (2 * q.den)

/-- The JS idiom `v || d` on an optional string field ("" is falsy). -/
def jsOrDefaultStr (v : Option String) (d : String) : String :=
  match v with
  | some s => if s = "" then d else s
  | none => d

/-- The JS idiom `v || d` on an optional integer field (0 is falsy). -/
def jsOrInt (v : Option ℤ) (d : ℤ) : ℤ :=
  match v with
  | some n => if n = 0 then d else n
  | none => d

/-- part_000 line 747: clamp = (value, min, max) =>
Math.round(Math.max(min, Math.min(max, Number(value) || 0))). -/
def clamp (value : JSVal) (lo hi : ℤ) : ℤ :=
  jsRound (max (lo : ℚ) (min (hi : ℚ) (jsNumberOrZero value)))

/-- A character matched by the regex class [0-9A-Fa-f]. -/
def isHexDigitChar (c : Char) : Bool :=
  c.isDigit || ('a' ≤ c && c ≤ 'f') || ('A' ≤ c && c ≤ 'F')

/-- The test of the regex from part_000 line 750, `^#[0-9A-F]{6}$` with
the i flag: a hash sign followed by exactly six hex digits. -/
def matchesHexColor (s : String) : Bool :=
  match s.data with
  | '#' :: rest => rest.length = 6 && rest.all isHexDigitChar
  | _ => false

/-- part_000 line 749: validateColor = (color) =>
/^#[0-9A-F]{6}$/i.test(color) ? color : '#000000'.  A missing color
tests the string "undefined", which does not match. -/
def validateColor (color : Option String) : String :=
  match color with
  | some s => if matchesHexColor s then s else "#000000"
  | none => "#000000"

/-- The seven known tools (systemPrompt tool enumeration, and the
client's VALID_TOOLS list in script.js line 151). -/
def sevenTools : List String :=
  ["pencil", "brush", "rectangle", "circle", "fill", "spray", "eraser"]

/-- The raw parameter object of one planner command, with every field
optional, as parsed from the model's JSON.  Absent fields are none /
undef. -/
structure RawParams where
  tool : Option String := none
  color : Option String := none
  lineWidth : JSVal := .undef
  startX : JSVal := .undef
  startY : JSVal := .undef
  x : JSVal := .undef
  y : JSVal := .undef
  width : JSVal := .undef
  duration : Option ℤ := none
  completionPercentage : Option ℤ := none
  currentPhase : Option ℤ := none
  completedPhase : Option ℤ := none
  reason : Option String := none
  recoverable : Option Bool := none
deriving DecidableEq, Repr

/-- A draw command as produced by part_000's validation layer: all seven
fields populated, coordinates and width integral after Math.round. -/
structure DrawParams where
  tool : String
  color : String
  lineWidth : ℤ
  startX : ℤ
  startY : ℤ
  x : ℤ
  y : ℤ
deriving DecidableEq, Repr

/-- part_000 lines 567-583, the validation map applied to an
/api/draw command's params:
tool || 'pencil', validateColor(color), clamp(lineWidth,1,50),
clamp(startX,0,800), clamp(startY,0,600), clamp(x,0,800),
clamp(y,0,600). -/
def validateDrawParams (p : RawParams) : DrawParams :=
  { tool := jsOrDefaultStr p.tool "pencil"
  , color := validateColor p.color
  , lineWidth := clamp p.lineWidth 1 50
  , startX := clamp p.startX 0 800
  , startY := clamp p.startY 0 600
  , x := clamp p.x 0 800
  , y := clamp p.y 0 600 }

/-- One planner command as executeCommands receives it: an optional
endpoint string and an optional parameter object. -/
structure Command where
  endpoint : Option String := none
  params : Option RawParams := none
deriving DecidableEq, Repr

/-- A message broadcast by the Executor to the connected sessions
(the argument of client.send, keyed by its type field). -/
inductive Msg where
  | phaseChange (phase completionPercentage : ℤ)
  | completionUpdate (percentage phase : ℤ)
  | clearCanvas
  | changeTool (tool : Option String)
  | changeColor (color : Option String)
  | changeLineWidth (width : JSVal)
  | drawAction (action : DrawParams)
  | pause (duration : Option ℤ)
  | triggerContinue (phase : ℤ)
deriving DecidableEq, Repr

/-- The state mutated by one executeCommands run of part_000:
the local shouldContinue / completionPercentage / phaseChange variables
(lines 560-562) and the session's ws.currentPhase.  Note that in
part_000 the next_phase and continue branches declare NEW consts named
completionPercentage (lines 598 and 626), shadowing the outer variable,
so the completionPercentage field here is never written by any step. -/
structure ExecState where
  shouldContinue : Bool
  completionPercentage : ℤ
  phaseChange : Bool
  phase : ℤ
deriving DecidableEq, Repr

/-- executeCommands' initial state for a session at the given phase. -/
def execInit (phase : ℤ) : ExecState :=
  { shouldContinue := false, completionPercentage := 0
  , phaseChange := false, phase := phase }

/-- part_000 lines 591-621, the /api/next_phase branch:
completedPhase = params.completedPhase || ws.currentPhase;
if completedPhase + 1 <= 3 set the phase to it, broadcast PHASE_CHANGE
and mark shouldContinue and phaseChange; the completionPercentage const
declared here shadows the outer variable. -/
def nextPhaseStep (s : ExecState) (p : RawParams) : ExecState × List Msg :=
  let completed := jsOrInt p.completedPhase s.phase
  let next := completed + 1
  if next ≤ 3 then
    ({ s with phase := next, shouldContinue := true, phaseChange := true },
     [.phaseChange next (p.completionPercentage.getD 0)])
  else (s, [])

/-- part_000 lines 624-654, the /api/continue branch: set
shouldContinue, copy params.currentPhase into the session phase when
truthy, broadcast COMPLETION_UPDATE, and clear shouldContinue again
when the branch-local completionPercentage (params value or 0) is at
least 95; the outer completionPercentage is shadowed, not written. -/
def continueStep (s : ExecState) (p : RawParams) : ExecState × List Msg :=
  let cp := p.completionPercentage.getD 0
  let newPhase := jsOrInt p.currentPhase s.phase
  let s1 := { s with shouldContinue := true, phase := newPhase }
  let s2 := if cp < 95 then s1 else { s1 with shouldContinue := false }
  (s2, [.completionUpdate cp newPhase])

/-- part_000 lines 695-701 and 713-739, the /api/pause dispatch plus the
post-pause logic: broadcast PAUSE, wait, then if shouldContinue is set
and the recorded completionPercentage is below 95 broadcast
TRIGGER_CONTINUE with the session's current phase and clear the flag
(and phaseChange). -/
def pauseStep (s : ExecState) (p : RawParams) : ExecState × List Msg :=
  if s.shouldContinue = true ∧ s.completionPercentage < 95 then
    ({ s with shouldContinue := false, phaseChange := false },
     [.pause p.duration, .triggerContinue s.phase])
  else (s, [.pause p.duration])

/-- part_000 lines 662-704, the dispatch switch for the broadcasting
endpoints; the default case only logs.  The /api/draw case sends the
params produced by the validation map (lines 567-583); fusing the map
into the dispatch is faithful because the map rewrites exactly the
/api/draw commands' params and no other branch reads them. -/
def broadcastMsgs (ep : String) (p : RawParams) : List Msg :=
  if ep = "/api/clear" then [.clearCanvas]
  else if ep = "/api/tool" then [.changeTool p.tool]
  else if ep = "/api/color" then [.changeColor p.color]
  else if ep = "/api/linewidth" then [.changeLineWidth p.width]
  else if ep = "/api/draw" then [.drawAction (validateDrawParams p)]
  else []

/-- One iteration of part_000's command loop (lines 586-742): commands
whose endpoint or params is missing (or whose endpoint is the falsy
empty string) are skipped by the `command.endpoint && command.params`
guard. -/
def execStep (s : ExecState) (c : Command) : ExecState × List Msg :=
  match c.endpoint, c.params with
  | some ep, some p =>
    if ep = "" then (s, [])
    else if ep = "/api/next_phase" then nextPhaseStep s p
    else if ep = "/api/continue" then continueStep s p
    else if ep = "/api/pause" then pauseStep s p
    else (s, broadcastMsgs ep p)
  | _, _ => (s, [])

/-- The command loop over a whole batch, collecting broadcasts in
order. -/
def runExec (s : ExecState) (cmds : List Command) : ExecState × List Msg :=
  match cmds with
  | [] => (s, [])
  | c :: rest =>
    let r1 := execStep s c
    let r2 := runExec r1.1 rest
    (r2.1, r1.2 ++ r2.2)

/-- executeCommands of part_000.  The validation map reads
command.params.tool on every /api/draw command before the loop's guard
runs, so a draw command with absent params makes the source throw; that
is the none case here.  Otherwise the run is the loop over the batch. -/
def executeCommands (s : ExecState) (cmds : List Command) :
    Option (ExecState × List Msg) :=
  if cmds.any (fun c => decide (c.endpoint = some "/api/draw" ∧ c.params = none))
  then none
  else some (runExec s cmds)

/-- A draw action as part_001's inline validation emits it: tool and
color are strings, but the numeric fields can be NaN, since Math.max /
Math.min propagate NaN from a non-numeric input. -/
structure DrawAction where
  tool : String
  color : String
  lineWidth : JSNum
  startX : JSNum
  startY : JSNum
  x : JSNum
  y : JSNum
deriving DecidableEq, Repr

/-- part_001 lines 688-697, the per-coordinate treatment inside the
/api/draw dispatch: default only when the field is strictly undefined
(=== undefined), then Math.max(0, Math.min(hi, v)).  The same
default-then-bound pattern is applied to each of the four coordinates. -/
def inlineCoord (v : JSVal) (d : ℚ) (hi : ℚ) : JSNum :=
  let v1 := if v = .undef then JSVal.num d else v
  jsMax (.num 0) (jsMin (.num hi) (toJSNum v1))

/-- part_001 lines 699-711, the color fixup: prepend a hash when the
string does not start with one, expand a 4-character #RGB form, and
replace anything whose length is not 7 by black.  No hex-digit check is
performed. -/
def inlineColor (c : String) : String :=
  let c1 := if c.startsWith "#" then c else "#" ++ c
  let c2 :=
    match c1.data with
    | [h, r, g, b] => String.mk [h, r, r, g, g, b, b]
    | _ => c1
  if c2.length = 7 then c2 else "#000000"

/-- part_001 lines 681-715, the inline validation of a draw command's
params inside executeCommands: falsy tool/color/lineWidth get defaults
(pencil, #000000, 2); coordinates default to (400,300)/(450,350) only
when strictly undefined, then are bounded by Math.max/Math.min (NaN
propagates); the color string is repaired by shape only; lineWidth is
bounded to [1,50] without rounding. -/
def validateDrawParamsInline (p : RawParams) : DrawAction :=
  let tool := jsOrDefaultStr p.tool "pencil"
  let color0 := jsOrDefaultStr p.color "#000000"
  let lineWidth0 := if jsFalsy p.lineWidth then JSVal.num 2 else p.lineWidth
  { tool := tool
  , color := inlineColor color0
  , lineWidth := jsMax (.num 1) (jsMin (.num 50) (toJSNum lineWidth0))
  , startX := inlineCoord p.startX 400 800
  , startY := inlineCoord p.startY 300 600
  , x := inlineCoord p.x 450 800
  , y := inlineCoord p.y 350 600 }

/-- A canvas analysis as the coordination logic observes it
(description and suggestions only feed prompt text). -/
structure Analysis where
  completionPercentage : ℤ
deriving DecidableEq, Repr

/-- The outcome of the generateContent call inside streamingModeUpdate:
the call threw (caught by the outer catch), or its text yielded no
parsable JSON array, or it parsed to a command array. -/
inductive ModelOutcome where
  | threw
  | unparsable
  | parsed (cmds : List Command)
deriving DecidableEq, Repr

/-- The module state of src/services/gemini.js relevant to streaming:
the streamingModeActive flag, the saved lastCanvasAnalysis and the
configured streamingBatchSize. -/
structure GeminiState where
  streamingModeActive : Bool
  lastCanvasAnalysis : Option Analysis
  streamingBatchSize : ℤ
deriving DecidableEq, Repr

/-- The failure pseudo-command streamingModeUpdate returns
(endpoint /api/drawing_failed with a reason and a recoverable flag). -/
def drawingFailedCmd (reason : String) (recoverable : Bool) : Command :=
  { endpoint := some "/api/drawing_failed"
  , params := some { reason := some reason, recoverable := some recoverable } }

/-- The terminal command streamingModeUpdate returns at completion of at
least 95 percent (gemini.js lines 674-677). -/
def terminalContinueCmd : Command :=
  { endpoint := some "/api/continue"
  , params := some { completionPercentage := some 100, currentPhase := some 3 } }

/-- The pause command appended to a streaming batch that does not end in
one (gemini.js lines 795-801). -/
def trailingPauseCmd : Command :=
  { endpoint := some "/api/pause", params := some { duration := some 1000 } }

/-- gemini.js lines 777-804: cap the parsed commands to the batch size,
fail when no /api/draw command is present, and append a pause when the
batch does not already end in one. -/
def batchStreamingCommands (batchSize : ℤ) (cmds : List Command) : List Command :=
  let batched := cmds.take batchSize.toNat
  if batched.any (fun c => decide (c.endpoint = some "/api/draw")) then
    match batched.getLast? with
    | some lastC =>
      if lastC.endpoint = some "/api/pause" then batched
      else batched ++ [trailingPauseCmd]
    | none => batched
  else
    [drawingFailedCmd "AI did not generate any drawing commands" true]

/-- gemini.js lines 622-880, streamingModeUpdate, as a function of the
module state, the analyzeLiveCanvas result (none models its internal
failure, which that function catches and returns as null) and the
outcome of the second model call.  The function first re-activates
streamingModeActive (lines 635-638), then: analysis failure returns a
recoverable drawing_failed batch; completion of at least 95 percent
clears streamingModeActive and returns the terminal continue command;
otherwise the parsed commands are batched, an unparsable response gives
a recoverable drawing_failed batch, and a thrown call reaches the outer
catch, which returns a NON-recoverable drawing_failed batch. -/
def streamingModeUpdate (g : GeminiState) (analysis : Option Analysis)
    (outcome : ModelOutcome) : GeminiState × List Command :=
  let g1 := { g with streamingModeActive := true }
  match analysis with
  | none => (g1, [drawingFailedCmd "Failed to analyze canvas state" true])
  | some a =>
    let g2 := { g1 with lastCanvasAnalysis := some a }
    if 95 ≤ a.completionPercentage then
      ({ g2 with streamingModeActive := false }, [terminalContinueCmd])
    else
      match outcome with
      | .threw => (g2, [drawingFailedCmd "AI drawing error" false])
      | .unparsable => (g2, [drawingFailedCmd "Failed to parse AI response" true])
      | .parsed cmds => (g2, batchStreamingCommands g2.streamingBatchSize cmds)

/-- The per-session streaming state of part_000: ws.streamingMode and
whether ws.originalPrompt is set. -/
structure StreamSession where
  streamingMode : Bool
  hasPrompt : Bool
deriving DecidableEq, Repr

/-- The result of handling one CANVAS_UPDATE for a streaming session. -/
structure CanvasStepResult where
  gemini : GeminiState
  session : StreamSession
  roundInitiated : Bool
  batch : List Command
deriving DecidableEq, Repr

/-- part_000 lines 93-105 and 753-827: a CANVAS_UPDATE initiates a
planning round (processNextCanvasUpdate calling streamingModeUpdate)
whenever ws.streamingMode and ws.originalPrompt are set; when the
returned batch is nonempty it is executed and the session keeps
streaming, and only an empty batch turns ws.streamingMode off
(STREAMING_COMPLETE).  The isProcessingCommand mutual exclusion only
defers a round, so the sequential one-update-at-a-time model keeps each
round's effect. -/
def canvasUpdateStep (g : GeminiState) (ss : StreamSession)
    (analysis : Option Analysis) (outcome : ModelOutcome) : CanvasStepResult :=
  if ss.streamingMode = true ∧ ss.hasPrompt = true then
    let r := streamingModeUpdate g analysis outcome
    if r.2.length > 0 then
      { gemini := r.1, session := ss, roundInitiated := true, batch := r.2 }
    else
      { gemini := r.1, session := { ss with streamingMode := false }
      , roundInitiated := true, batch := r.2 }
  else
    { gemini := g, session := ss, roundInitiated := false, batch := [] }

/-- gemini.js lines 975-979: setStreamingBatchSize stores
Math.max(1, Math.min(5, size)). -/
def setStreamingBatchSize (size : ℤ) : ℤ := max 1 (min 5 size)

/-- part_000 lines 200-204, the TOGGLE_STREAMING_MODE handler: a truthy
interval is stored as Math.max(MIN_STREAMING_INTERVAL,
Math.min(MAX_STREAMING_INTERVAL, interval)) with
MIN_STREAMING_INTERVAL = 200 and MAX_STREAMING_INTERVAL = 2000
(lines 41-42). -/
def toggleStreamingModeInterval (interval : ℤ) : ℤ :=
  max 200 (min 2000 interval)

/-- part_000 line 429, POST /api/streaming-rate:
Math.max(100, Math.min(2000, rate)). -/
def streamingRateInterval (rate : ℤ) : ℤ := max 100 (min 2000 rate)

/-- part_000 line 539, POST /api/streaming-mode: a truthy interval is
stored as Math.max(100, Math.min(2000, interval)). -/
def streamingModeEndpointInterval (interval : ℤ) : ℤ :=
  max 100 (min 2000 interval)

/-- gemini.js lines 290-298 (and identically 314-322): push the prompt
and the raw response onto conversationHistory and keep the last 10
entries (slice(-10)) when the length exceeds 10. -/
def pushHistory (history : List String) (prompt text : String) : List String :=
  let h := history ++ [prompt, text]
  if 10 < h.length then h.drop (h.length - 10) else h

/-- A command carries no explicit phase payload: an /api/next_phase
command has a falsy completedPhase and an /api/continue command has a
falsy currentPhase. -/
def phasePayloadFree (c : Command) : Prop :=
  (c.endpoint = some "/api/next_phase" →
    ∀ p, c.params = some p → (p.completedPhase = none ∨ p.completedPhase = some 0))
  ∧ (c.endpoint = some "/api/continue" →
    ∀ p, c.params = some p → (p.currentPhase = none ∨ p.currentPhase = some 0))

/-- The Scenario A batch: three operation commands, then a Continue at
20 percent in phase 1, then a Pause. -/
def scenarioABatch : List Command :=
  [ { endpoint := some "/api/tool", params := some { tool := some "pencil" } }
  , { endpoint := some "/api/color", params := some { color := some "#000000" } }
  , { endpoint := some "/api/draw"
    , params := some { tool := some "pencil", color := some "#000000"
                     , lineWidth := .num 2, startX := .num 100, startY := .num 100
                     , x := .num 200, y := .num 200 } }
  , { endpoint := some "/api/continue"
    , params := some { completionPercentage := some 20, currentPhase := some 1 } }
  , { endpoint := some "/api/pause", params := some { duration := some 1000 } } ]

/-- A concrete well-formed draw command for exercising the streaming
batch logic. -/
def sampleDrawCmd : Command :=
  { endpoint := some "/api/draw"
  , params := some { tool := some "pencil", color := some "#000000"
                   , lineWidth := .num 2, startX := .num 10, startY := .num 10
                   , x := .num 20, y := .num 20 } }

/-- The gemini.js module state right after streaming mode is toggled
on. -/
def streamGemini0 : GeminiState :=
  { streamingModeActive := true, lastCanvasAnalysis := none
  , streamingBatchSize := 3 }

/-- A session that is streaming and has an original prompt stored. -/
def streamSession0 : StreamSession :=
  { streamingMode := true, hasPrompt := true }

/-- First canvas update of the C3 scenario: the analysis reports 95
percent completion. -/
def c3Round1 : CanvasStepResult :=
  canvasUpdateStep streamGemini0 streamSession0
    (some { completionPercentage := 95 }) (.parsed [])

/-- Second canvas update of the C3 scenario, arriving after the 95
percent round with no new prompt submitted. -/
def c3Round2 : CanvasStepResult :=
  canvasUpdateStep c3Round1.gemini c3Round1.session
    (some { completionPercentage := 50 }) (.parsed [sampleDrawCmd])

/-- Does the coordinate field hold a number or undefined (as opposed to
a non-numeric string)? -/
def isNumOrUndef : JSVal → Bool
  | .nonNumStr _ => false
  | _ => true

/-! Basic lemmas about the numeric helpers. -/

theorem jsRound_eq (q : ℚ) : jsRound q = ⌊q + 1/2⌋ := by
  rw [jsRound]
  have hd : ((q.den : ℚ)) ≠ 0 := by exact_mod_cast q.den_nz
  have key := Rat.mul_den_eq_num q
  have hq : q + 1/2 = (((2 * q.num + (q.den : ℤ)) : ℤ) : ℚ) / (((2 * q.den : ℕ) : ℕ) : ℚ) := by
    push_cast
    field_simp
    linarith [key]
  rw [hq, Rat.floor_intCast_div_natCast]
  push_cast
  ring_nf

theorem jsRound_intCast (n : ℤ) : jsRound (n : ℚ) = n := by
  rw [jsRound_eq]
  apply Int.floor_eq_iff.mpr
  constructor
  · linarith
  · linarith

theorem clamp_lower (v : JSVal) (lo hi : ℤ) :
    lo ≤ clamp v lo hi := by
  rw [clamp, jsRound_eq]
  apply Int.le_floor.mpr
  have h1 : (lo : ℚ) ≤ max (lo : ℚ) (min (hi : ℚ) (jsNumberOrZero v)) :=
    le_max_left _ _
  linarith

theorem clamp_upper (v : JSVal) (lo hi : ℤ) (h : lo ≤ hi) :
    clamp v lo hi ≤ hi := by
  rw [clamp, jsRound_eq]
  have hq : (lo : ℚ) ≤ (hi : ℚ) := by exact_mod_cast h
  have h1 : max (lo : ℚ) (min (hi : ℚ) (jsNumberOrZero v)) ≤ (hi : ℚ) :=
    max_le hq (min_le_left _ _)
  have h2 : ⌊max (lo : ℚ) (min (hi : ℚ) (jsNumberOrZero v)) + 1/2⌋ < hi + 1 := by
    apply Int.floor_lt.mpr
    push_cast
    linarith
  omega

theorem clamp_int_id (n lo hi : ℤ) (h1 : lo ≤ n) (h2 : n ≤ hi) :
    clamp (.num (n : ℚ)) lo hi = n := by
  have hmin : min (hi : ℚ) ((n : ℤ) : ℚ) = (n : ℚ) := by
    apply min_eq_right; exact_mod_cast h2
  have hmax : max (lo : ℚ) ((n : ℤ) : ℚ) = (n : ℚ) := by
    apply max_eq_right; exact_mod_cast h1
  rw [clamp]
  rw [show jsNumberOrZero (.num ((n : ℤ) : ℚ)) = ((n : ℤ) : ℚ) from rfl]
  rw [hmin, hmax, jsRound_intCast]

theorem validateColor_valid (c : Option String) :
    matchesHexColor (validateColor c) = true := by
  match c with
  | none => decide
  | some s =>
    rw [validateColor]
    by_cases h : matchesHexColor s = true
    · simp [h]
    · simp [h]; decide

theorem sevenTools_ne_empty : ∀ t ∈ sevenTools, t ≠ "" := by decide

/-- C1 (amended): for every raw command object given to the Validator,
the returned draw command has color matching the #RRGGBB hex pattern,
lineWidth in [1,50], startX and x in [0,800] and startY and y in
[0,600]; the tool field is the string "pencil" exactly when the input
tool is missing or empty, and otherwise the input tool string passes
through unchanged, so membership in the seven-tool set is NOT
guaranteed for an unknown non-empty tool string. -/
theorem c1_validator_ranges (p : RawParams) :
    matchesHexColor (validateDrawParams p).color = true
    ∧ (1 ≤ (validateDrawParams p).lineWidth ∧ (validateDrawParams p).lineWidth ≤ 50)
    ∧ (0 ≤ (validateDrawParams p).startX ∧ (validateDrawParams p).startX ≤ 800)
    ∧ (0 ≤ (validateDrawParams p).startY ∧ (validateDrawParams p).startY ≤ 600)
    ∧ (0 ≤ (validateDrawParams p).x ∧ (validateDrawParams p).x ≤ 800)
    ∧ (0 ≤ (validateDrawParams p).y ∧ (validateDrawParams p).y ≤ 600)
    ∧ ((p.tool = none ∨ p.tool = some "") → (validateDrawParams p).tool = "pencil")
    ∧ (∀ t, p.tool = some t → t ≠ "" → (validateDrawParams p).tool = t) := by
  refine ⟨validateColor_valid p.color,
    ⟨clamp_lower _ _ _, clamp_upper _ _ _ (by norm_num)⟩,
    ⟨clamp_lower _ _ _, clamp_upper _ _ _ (by norm_num)⟩,
    ⟨clamp_lower _ _ _, clamp_upper _ _ _ (by norm_num)⟩,
    ⟨clamp_lower _ _ _, clamp_upper _ _ _ (by norm_num)⟩,
    ⟨clamp_lower _ _ _, clamp_upper _ _ _ (by norm_num)⟩,
    ?_, ?_⟩
  · rintro (h | h) <;>
      simp [validateDrawParams, jsOrDefaultStr, h]
  · intro t ht hne
    simp [validateDrawParams, jsOrDefaultStr, ht, hne]

/-- C1 counterexample: the raw command with tool "banana" (an unknown
non-empty tool string) is returned by the Validator with tool still
"banana", which is not in the seven-tool set, refuting the claim that
the returned tool is always one of the seven tools. -/
theorem c1_counterexample :
    (validateDrawParams { tool := some "banana" }).tool = "banana"
    ∧ "banana" ∉ sevenTools := by
  constructor
  · rfl
  · decide

/-- C1 witness: instance of c1_validator_ranges at a concrete malformed
input (3-digit hex color, out-of-range and missing numbers), with the
tool conjunct discharged at a missing tool. -/
theorem c1_witness :
    matchesHexColor (validateDrawParams
        { color := some "#123", lineWidth := .num 500
        , startX := .num (-10), startY := .num 900 }).color = true
    ∧ (validateDrawParams
        { color := some "#123", lineWidth := .num 500
        , startX := .num (-10), startY := .num 900 }).tool = "pencil" :=
  ⟨(c1_validator_ranges _).1,
   ((((((((c1_validator_ranges
      { color := some "#123", lineWidth := .num 500
      , startX := .num (-10), startY := .num 900 }).2).2).2).2).2).2).1)
     (Or.inl rfl)⟩

/-- C9 (confirmed): the Validator is idempotent on already-valid draw
commands: when the tool is one of the seven tools, the color matches
the hex pattern, and lineWidth and the four coordinates are integers in
range, the validated command keeps all seven fields unchanged. -/
theorem c9_validator_idempotent (p : RawParams) (t col : String)
    (w sx sy px py : ℤ)
    (htool : p.tool = some t) (htmem : t ∈ sevenTools)
    (hcol : p.color = some col) (hcolv : matchesHexColor col = true)
    (hw : p.lineWidth = .num (w : ℚ)) (hw1 : 1 ≤ w) (hw2 : w ≤ 50)
    (hsx : p.startX = .num (sx : ℚ)) (hsx1 : 0 ≤ sx) (hsx2 : sx ≤ 800)
    (hsy : p.startY = .num (sy : ℚ)) (hsy1 : 0 ≤ sy) (hsy2 : sy ≤ 600)
    (hx : p.x = .num (px : ℚ)) (hx1 : 0 ≤ px) (hx2 : px ≤ 800)
    (hy : p.y = .num (py : ℚ)) (hy1 : 0 ≤ py) (hy2 : py ≤ 600) :
    validateDrawParams p =
      { tool := t, color := col, lineWidth := w
      , startX := sx, startY := sy, x := px, y := py } := by
  have hne : t ≠ "" := sevenTools_ne_empty t htmem
  rw [validateDrawParams, htool, hcol, hw, hsx, hsy, hx, hy]
  rw [clamp_int_id w 1 50 hw1 hw2, clamp_int_id sx 0 800 hsx1 hsx2,
    clamp_int_id sy 0 600 hsy1 hsy2, clamp_int_id px 0 800 hx1 hx2,
    clamp_int_id py 0 600 hy1 hy2]
  simp [jsOrDefaultStr, validateColor, hne, hcolv]

/-- C9 witness: a concrete already-valid draw command is returned
unchanged. -/
theorem c9_witness :
    validateDrawParams
      { tool := some "brush", color := some "#12AbF0"
      , lineWidth := .num 7, startX := .num 0, startY := .num 600
      , x := .num 800, y := .num 1 } =
    { tool := "brush", color := "#12AbF0", lineWidth := 7
    , startX := 0, startY := 600, x := 800, y := 1 } :=
  c9_validator_idempotent _ "brush" "#12AbF0" 7 0 600 800 1
    rfl (by decide) rfl (by decide)
    rfl (by decide) (by decide)
    rfl (by decide) (by decide)
    rfl (by decide) (by decide)
    rfl (by decide) (by decide)
    rfl (by decide) (by decide)

theorem execStep_phase_props (s : ExecState) (c : Command)
    (hc : phasePayloadFree c)
    (hp : s.phase = 1 ∨ s.phase = 2 ∨ s.phase = 3) :
    s.phase ≤ (execStep s c).1.phase
    ∧ ((execStep s c).1.phase = 1 ∨ (execStep s c).1.phase = 2
        ∨ (execStep s c).1.phase = 3)
    ∧ ((execStep s c).1.phase ≠ s.phase →
        c.endpoint = some "/api/next_phase"
        ∧ (execStep s c).1.phase = s.phase + 1 ∧ s.phase + 1 ≤ 3) := by
  obtain ⟨ep?, p?⟩ := c
  cases ep? with
  | none => simp [execStep]; omega
  | some ep =>
    cases p? with
    | none => simp [execStep]; omega
    | some p =>
      by_cases hep0 : ep = ""
      · simp [execStep, hep0]; omega
      · by_cases hnp : ep = "/api/next_phase"
        · have hfree := hc.1 (by simp [hnp]) p rfl
          have hcp : jsOrInt p.completedPhase s.phase = s.phase := by
            rcases hfree with h | h <;> simp [jsOrInt, h]
          simp only [execStep, hep0, if_false, hnp, if_true, nextPhaseStep, hcp]
          by_cases hle : s.phase + 1 ≤ 3
          · simp [hle, hnp]; omega
          · simp [hle]; omega
        · by_cases hco : ep = "/api/continue"
          · have hfree := hc.2 (by simp [hco]) p rfl
            have hcp : jsOrInt p.currentPhase s.phase = s.phase := by
              rcases hfree with h | h <;> simp [jsOrInt, h]
            simp only [execStep, hep0, if_false, hnp, hco, if_true, continueStep, hcp]
            by_cases hlt : p.completionPercentage.getD 0 < 95 <;>
              simp [hlt] <;> omega
          · by_cases hpa : ep = "/api/pause"
            · simp only [execStep, hep0, if_false, hnp, hco, hpa, if_true, pauseStep]
              by_cases htr : s.shouldContinue = true ∧ s.completionPercentage < 95 <;>
                simp [htr] <;> omega
            · simp [execStep, hep0, hnp, hco, hpa]; omega

/-- C2 (amended): provided every /api/next_phase command in the batch
carries a falsy completedPhase and every /api/continue command a falsy
currentPhase, a session's phase never decreases, never exceeds 3 and
stays in the set of the three phases under any command sequence, and a
single step changes the phase only when the command is an explicit
/api/next_phase whose advance stays within the cap, in which case the
phase becomes phase + 1 with phase + 1 at most 3.  (With explicit
payloads the code copies an /api/continue currentPhase unchecked and
sets completedPhase + 1 whenever that is at most 3, so the claimed
bound and monotonicity fail; see the counterexample.) -/
theorem c2_phase_monotone (s : ExecState) (cmds : List Command)
    (hp : s.phase = 1 ∨ s.phase = 2 ∨ s.phase = 3)
    (hfree : ∀ c ∈ cmds, phasePayloadFree c) :
    (s.phase ≤ (runExec s cmds).1.phase
      ∧ ((runExec s cmds).1.phase = 1 ∨ (runExec s cmds).1.phase = 2
          ∨ (runExec s cmds).1.phase = 3)
      ∧ (runExec s cmds).1.phase ≤ 3)
    ∧ (∀ (t : ExecState) (c : Command), phasePayloadFree c →
        (t.phase = 1 ∨ t.phase = 2 ∨ t.phase = 3) →
        (execStep t c).1.phase ≠ t.phase →
        c.endpoint = some "/api/next_phase"
        ∧ (execStep t c).1.phase = t.phase + 1 ∧ t.phase + 1 ≤ 3) := by
  constructor
  · induction cmds generalizing s with
    | nil => simp [runExec]; omega
    | cons c rest ih =>
      have hstep := execStep_phase_props s c (hfree c (by simp)) hp
      have hrest := ih (execStep s c).1 hstep.2.1
        (fun d hd => hfree d (by simp [hd]))
      simp only [runExec]
      refine ⟨le_trans hstep.1 hrest.1, hrest.2.1, hrest.2.2⟩
  · intro t c hc ht hne
    exact (execStep_phase_props t c hc ht).2.2 hne

/-- C2 counterexample: from phase 1, a single /api/continue command
with currentPhase 7 (any truthy value is copied unchecked, part_000
lines 629-632) drives the session phase to 7, which exceeds 3 — the
phase does not stay in the three-phase set and is changed by a command
that is not an AdvancePhase. -/
theorem c2_counterexample :
    (runExec (execInit 1)
      [{ endpoint := some "/api/continue"
       , params := some { completionPercentage := some 0, currentPhase := some 7 } }]).1.phase
      = 7 ∧ ¬ ((7 : ℤ) ≤ 3) := by
  constructor
  · decide
  · decide

/-- C2 witness: instance of c2_phase_monotone on a concrete
payload-free batch: an /api/next_phase command without completedPhase
advances phase 1 to a phase still within the cap. -/
theorem c2_witness :
    (runExec (execInit 1)
      [{ endpoint := some "/api/next_phase", params := some {} }]).1.phase ≤ 3 := by
  have h := c2_phase_monotone (execInit 1)
    [{ endpoint := some "/api/next_phase", params := some {} }]
    (Or.inl rfl)
    (by
      intro c hc
      simp only [List.mem_singleton] at hc
      subst hc
      constructor
      · intro _ p hp
        cases hp
        exact Or.inl rfl
      · intro _ p hp
        cases hp
        exact Or.inl rfl)
  exact h.1.2.2

/-- C4 (confirmed): a step of the Executor emits TRIGGER_CONTINUE
exactly on a pause command (with params) when the should-continue flag
is set and the recorded completion percentage is below 95; the flag
becomes set only by an /api/continue or /api/next_phase command; after
an emission the flag is cleared, so one pause triggers at most one
continuation; and the Scenario A batch broadcasts the three operations,
the completion update and the pause, followed by TRIGGER_CONTINUE with
phase 1, ending with the flag cleared. -/
theorem c4_trigger_continue :
    (∀ (s : ExecState) (c : Command),
        (∃ ph, Msg.triggerContinue ph ∈ (execStep s c).2)
        ↔ (c.endpoint = some "/api/pause" ∧ c.params.isSome = true
            ∧ s.shouldContinue = true ∧ s.completionPercentage < 95))
    ∧ (∀ (s : ExecState) (c : Command),
        (execStep s c).1.shouldContinue = true →
          s.shouldContinue = true ∨ c.endpoint = some "/api/continue"
          ∨ c.endpoint = some "/api/next_phase")
    ∧ (∀ (s : ExecState) (c : Command) (ph : ℤ),
        Msg.triggerContinue ph ∈ (execStep s c).2 →
          (execStep s c).1.shouldContinue = false)
    ∧ executeCommands (execInit 1) scenarioABatch =
        some (execInit 1,
          [Msg.changeTool (some "pencil"), Msg.changeColor (some "#000000"),
           Msg.drawAction { tool := "pencil", color := "#000000", lineWidth := 2
                          , startX := 100, startY := 100, x := 200, y := 200 },
           Msg.completionUpdate 20 1, Msg.pause (some 1000),
           Msg.triggerContinue 1]) := by
  refine ⟨?_, ?_, ?_, by decide⟩
  · intro s c
    obtain ⟨ep?, p?⟩ := c
    cases ep? with
    | none => simp [execStep]
    | some ep =>
      cases p? with
      | none => simp [execStep]
      | some p =>
        by_cases hep0 : ep = ""
        · simp [execStep, hep0]
        · by_cases hnp : ep = "/api/next_phase"
          · subst hnp
            simp only [execStep, hep0, if_false, if_true, nextPhaseStep]
            by_cases hle : jsOrInt p.completedPhase s.phase + 1 ≤ 3 <;>
              simp [hle]
          · by_cases hco : ep = "/api/continue"
            · subst hco
              simp only [execStep, hep0, if_false, if_true, continueStep]
              simp
            · by_cases hpa : ep = "/api/pause"
              · subst hpa
                simp only [execStep, hep0, if_false, if_true, pauseStep]
                by_cases htr : s.shouldContinue = true ∧ s.completionPercentage < 95 <;>
                  simp [htr]
              · simp only [execStep, hep0, if_false, hnp, hco, hpa, broadcastMsgs]
                split_ifs <;> simp [hpa]
  · intro s c
    obtain ⟨ep?, p?⟩ := c
    cases ep? with
    | none => intro h; exact Or.inl h
    | some ep =>
      cases p? with
      | none => intro h; exact Or.inl h
      | some p =>
        by_cases hep0 : ep = ""
        · simp only [execStep, if_pos hep0]
          intro h; exact Or.inl h
        · by_cases hnp : ep = "/api/next_phase"
          · subst hnp; intro _; exact Or.inr (Or.inr rfl)
          · by_cases hco : ep = "/api/continue"
            · subst hco; intro _; exact Or.inr (Or.inl rfl)
            · by_cases hpa : ep = "/api/pause"
              · subst hpa
                simp only [execStep, if_neg hep0, if_neg hnp, if_neg hco, if_pos rfl,
                  pauseStep]
                by_cases htr : s.shouldContinue = true ∧ s.completionPercentage < 95
                · simp only [if_pos htr]
                  intro h
                  exact (Bool.false_ne_true h).elim
                · simp only [if_neg htr]
                  intro h; exact Or.inl h
              · simp only [execStep, if_neg hep0, if_neg hnp, if_neg hco, if_neg hpa]
                intro h; exact Or.inl h
  · intro s c ph
    obtain ⟨ep?, p?⟩ := c
    cases ep? with
    | none => simp [execStep]
    | some ep =>
      cases p? with
      | none => simp [execStep]
      | some p =>
        by_cases hep0 : ep = ""
        · simp [execStep, hep0]
        · by_cases hnp : ep = "/api/next_phase"
          · subst hnp
            simp only [execStep, hep0, if_false, if_true, nextPhaseStep]
            by_cases hle : jsOrInt p.completedPhase s.phase + 1 ≤ 3 <;>
              simp [hle]
          · by_cases hco : ep = "/api/continue"
            · subst hco
              simp only [execStep, hep0, if_false, if_true, continueStep]
              simp
            · by_cases hpa : ep = "/api/pause"
              · subst hpa
                simp only [execStep, hep0, if_false, hnp, hco, if_true, pauseStep]
                by_cases htr : s.shouldContinue = true ∧ s.completionPercentage < 95 <;>
                  simp [htr]
              · simp only [execStep, hep0, if_false, hnp, hco, hpa, broadcastMsgs]
                split_ifs <;> simp

/-- C4 witness: a concrete pause command with the flag set and recorded
completion 0 emits TRIGGER_CONTINUE. -/
theorem c4_witness :
    ∃ ph, Msg.triggerContinue ph ∈
      (execStep { shouldContinue := true, completionPercentage := 0
                , phaseChange := false, phase := 2 }
        { endpoint := some "/api/pause"
        , params := some { duration := some 500 } }).2 :=
  (c4_trigger_continue.1 _ _).mpr (by decide)

/-- C5 (code bug evaluation): a Clear command in the exact format the
system prompt documents (endpoint /api/clear and no params object) is
skipped whole by the `command.endpoint && command.params` guard of
executeCommands — no CLEAR_CANVAS is broadcast, and nothing else is
sent; with a params object present the same endpoint does broadcast
CLEAR_CANVAS. -/
theorem c5_clear_skipped :
    executeCommands (execInit 1) [{ endpoint := some "/api/clear" }] =
      some (execInit 1, [])
    ∧ executeCommands (execInit 1)
        [{ endpoint := some "/api/clear", params := some {} }] =
      some (execInit 1, [Msg.clearCanvas]) := by
  exact ⟨by decide, by decide⟩

/-- C7 (code bug evaluation): when analyzeLiveCanvas fails,
streamingModeUpdate returns the /api/drawing_failed pseudo-command with
recoverable true — but executing that batch broadcasts nothing at all
(the executor has no case for /api/drawing_failed and its default
branch only logs), so no DRAWING_FAILED notification reaches any
session; moreover a thrown model call is returned with recoverable
false, not true. -/
theorem c7_drawing_failed_dropped :
    (streamingModeUpdate
        { streamingModeActive := false, lastCanvasAnalysis := none
        , streamingBatchSize := 3 } none ModelOutcome.threw).2
      = [drawingFailedCmd "Failed to analyze canvas state" true]
    ∧ executeCommands (execInit 1)
        [drawingFailedCmd "Failed to analyze canvas state" true] =
      some (execInit 1, [])
    ∧ (streamingModeUpdate
        { streamingModeActive := true, lastCanvasAnalysis := none
        , streamingBatchSize := 3 }
        (some { completionPercentage := 50 }) ModelOutcome.threw).2
      = [drawingFailedCmd "AI drawing error" false] := by
  exact ⟨by decide, by decide, by decide⟩

/-- C3 counterexample: a session in streaming mode with a prompt gets a
canvas update whose analysis reports 95 percent completion — the round
returns only the terminal continue command and clears the planner's
global flag — and then, with no new prompt submitted, a second canvas
update still initiates another planning round (the session's streaming
flag was never cleared, and streamingModeUpdate re-activates the global
flag on entry). -/
theorem c3_counterexample :
    c3Round1.roundInitiated = true
    ∧ c3Round1.batch = [terminalContinueCmd]
    ∧ c3Round1.gemini.streamingModeActive = false
    ∧ c3Round2.roundInitiated = true := by
  refine ⟨by decide, by decide, by decide, by decide⟩

/-- C3 (amended): a streaming analysis of at least 95 percent makes
that round return the single terminal continue command and clears the
planner's module-level streaming flag, but this does not terminate the
session's streaming: streamingModeUpdate never returns an empty batch,
and a nonempty batch leaves ws.streamingMode set, so every later
CANVAS_UPDATE from a session with a prompt initiates another planning
round (which re-activates the planner's flag on entry).  The session's
streaming flag would be cleared only by an empty batch. -/
theorem c3_streaming_not_terminal :
    (∀ (g : GeminiState) (a : Analysis) (o : ModelOutcome),
        95 ≤ a.completionPercentage →
          (streamingModeUpdate g (some a) o).2 = [terminalContinueCmd]
          ∧ (streamingModeUpdate g (some a) o).1.streamingModeActive = false)
    ∧ (∀ (g : GeminiState) (a : Option Analysis) (o : ModelOutcome),
        (streamingModeUpdate g a o).2 ≠ [])
    ∧ (∀ (g : GeminiState) (ss : StreamSession) (a : Option Analysis)
        (o : ModelOutcome),
        ss.streamingMode = true → ss.hasPrompt = true →
          (canvasUpdateStep g ss a o).roundInitiated = true
          ∧ (canvasUpdateStep g ss a o).session.streamingMode = true) := by
  have hne : ∀ (g : GeminiState) (a : Option Analysis) (o : ModelOutcome),
      (streamingModeUpdate g a o).2 ≠ [] := by
    intro g a o
    cases a with
    | none => simp [streamingModeUpdate]
    | some a =>
      simp only [streamingModeUpdate]
      by_cases h95 : 95 ≤ a.completionPercentage
      · simp [h95]
      · simp only [if_neg h95]
        cases o with
        | threw => simp
        | unparsable => simp
        | parsed cmds =>
          simp only
          rw [batchStreamingCommands]
          cases hany : (cmds.take (GeminiState.streamingBatchSize g).toNat).any
              (fun c => decide (c.endpoint = some "/api/draw")) with
          | false => simp [hany]
          | true =>
            have hbne : cmds.take (GeminiState.streamingBatchSize g).toNat ≠ [] := by
              intro hnil
              rw [hnil] at hany
              simp at hany
            simp only [hany, if_true]
            cases hlast : (cmds.take (GeminiState.streamingBatchSize g).toNat).getLast? with
            | none => simp [hlast, hbne]
            | some lastC =>
              simp only [hlast]
              by_cases hp : lastC.endpoint = some "/api/pause"
              · simp [hp, hbne]
              · simp [hp]
  refine ⟨?_, hne, ?_⟩
  · intro g a o h95
    simp [streamingModeUpdate, h95]
  · intro g ss a o hsm hpr
    have hguard : ss.streamingMode = true ∧ ss.hasPrompt = true := ⟨hsm, hpr⟩
    have hlen : (streamingModeUpdate g a o).2.length > 0 :=
      List.length_pos.mpr (hne g a o)
    rw [canvasUpdateStep, if_pos hguard, if_pos hlen]
    exact ⟨rfl, hsm⟩

/-- C3 witness: at a concrete 95 percent analysis the round's batch is
exactly the terminal continue command. -/
theorem c3_witness :
    (streamingModeUpdate streamGemini0 (some { completionPercentage := 95 })
      ModelOutcome.threw).2 = [terminalContinueCmd] :=
  (c3_streaming_not_terminal.1 _ _ _ (by decide)).1

theorem inlineCoord_num_or_undef (v : JSVal) (d hi : ℚ)
    (h0 : 0 ≤ d) (hh : d ≤ hi) (hv : isNumOrUndef v = true) :
    ∃ c, inlineCoord v d hi = .num c ∧ 0 ≤ c ∧ c ≤ hi
      ∧ (v = .undef → c = d) := by
  cases v with
  | undef =>
    refine ⟨d, ?_, h0, hh, fun _ => rfl⟩
    simp [inlineCoord, toJSNum, jsMin, jsMax, min_eq_right hh, max_eq_right h0]
  | num q =>
    refine ⟨max 0 (min hi q), ?_, le_max_left _ _,
      max_le (le_trans h0 hh) (min_le_left _ _), by simp⟩
    simp [inlineCoord, toJSNum, jsMin, jsMax]
  | nonNumStr s => simp [isNumOrUndef] at hv

/-- C6 (amended): for any draw command whose coordinate fields are each
either numeric or missing, the part_001 inline validation yields
numeric coordinates within [0,800] for startX and x and within [0,600]
for startY and y, and a missing (undefined) field receives the centered
default (400,300)/(450,350).  A NON-NUMERIC coordinate is not covered:
only strict undefined is defaulted, and a non-numeric value propagates
as NaN through Math.min/Math.max (see the counterexample). -/
theorem c6_inline_coordinates (p : RawParams)
    (hsx : isNumOrUndef p.startX = true) (hsy : isNumOrUndef p.startY = true)
    (hx : isNumOrUndef p.x = true) (hy : isNumOrUndef p.y = true) :
    (∃ c, (validateDrawParamsInline p).startX = .num c ∧ 0 ≤ c ∧ c ≤ 800
        ∧ (p.startX = .undef → c = 400))
    ∧ (∃ c, (validateDrawParamsInline p).startY = .num c ∧ 0 ≤ c ∧ c ≤ 600
        ∧ (p.startY = .undef → c = 300))
    ∧ (∃ c, (validateDrawParamsInline p).x = .num c ∧ 0 ≤ c ∧ c ≤ 800
        ∧ (p.x = .undef → c = 450))
    ∧ (∃ c, (validateDrawParamsInline p).y = .num c ∧ 0 ≤ c ∧ c ≤ 600
        ∧ (p.y = .undef → c = 350)) := by
  refine ⟨?_, ?_, ?_, ?_⟩
  · simpa [validateDrawParamsInline] using
      inlineCoord_num_or_undef p.startX 400 800 (by norm_num) (by norm_num) hsx
  · simpa [validateDrawParamsInline] using
      inlineCoord_num_or_undef p.startY 300 600 (by norm_num) (by norm_num) hsy
  · simpa [validateDrawParamsInline] using
      inlineCoord_num_or_undef p.x 450 800 (by norm_num) (by norm_num) hx
  · simpa [validateDrawParamsInline] using
      inlineCoord_num_or_undef p.y 350 600 (by norm_num) (by norm_num) hy

/-- C6 counterexample: a draw command whose startX is the non-numeric
string "abc" is NOT coerced to the centered default 400 — the inline
validation leaves NaN in startX (Math.min/Math.max propagate it), so
the coordinate is neither the default nor a clamped number. -/
theorem c6_counterexample :
    (validateDrawParamsInline
      { tool := some "pencil", color := some "#000000", lineWidth := .num 2
      , startX := .nonNumStr "abc", startY := .num 10
      , x := .num 20, y := .num 30 }).startX = JSNum.nan
    ∧ JSNum.nan ≠ JSNum.num 400 := by
  exact ⟨by decide, by decide⟩

/-- C6 witness: with all four coordinates missing, the inline
validation yields exactly the centered defaults. -/
theorem c6_witness :
    (validateDrawParamsInline {}).startX = JSNum.num 400 := by
  obtain ⟨c, hc, _, _, hd⟩ :=
    (c6_inline_coordinates {} (by decide) (by decide) (by decide) (by decide)).1
  rw [hc, hd rfl]

/-- C8 (amended): the stored streaming batch size is clamped to [1,5]
on every path (setStreamingBatchSize), and the stored streaming
interval is clamped to [100,2000] on the /api/streaming-rate and
/api/streaming-mode endpoints — but the TOGGLE_STREAMING_MODE message
handler clamps it to [200,2000] (MIN_STREAMING_INTERVAL is 200 in
part_000), so a requested interval in [100,200) is raised to 200 there
rather than stored as requested. -/
theorem c8_config_clamps (n : ℤ) :
    (1 ≤ setStreamingBatchSize n ∧ setStreamingBatchSize n ≤ 5
      ∧ (1 ≤ n → n ≤ 5 → setStreamingBatchSize n = n))
    ∧ (100 ≤ streamingRateInterval n ∧ streamingRateInterval n ≤ 2000
      ∧ (100 ≤ n → n ≤ 2000 → streamingRateInterval n = n))
    ∧ (100 ≤ streamingModeEndpointInterval n
      ∧ streamingModeEndpointInterval n ≤ 2000
      ∧ (100 ≤ n → n ≤ 2000 → streamingModeEndpointInterval n = n))
    ∧ (200 ≤ toggleStreamingModeInterval n
      ∧ toggleStreamingModeInterval n ≤ 2000
      ∧ (200 ≤ n → n ≤ 2000 → toggleStreamingModeInterval n = n)) := by
  unfold setStreamingBatchSize streamingRateInterval
    streamingModeEndpointInterval toggleStreamingModeInterval
  refine ⟨⟨?_, ?_, ?_⟩, ⟨?_, ?_, ?_⟩, ⟨?_, ?_, ?_⟩, ⟨?_, ?_, ?_⟩⟩ <;>
    (intros; omega)

/-- C8 counterexample: a requested TOGGLE_STREAMING_MODE interval of
150 ms is stored as 200, not as the value 150 that clamping to
[100,2000] would give. -/
theorem c8_counterexample :
    toggleStreamingModeInterval 150 = 200
    ∧ max 100 (min 2000 (150 : ℤ)) = 150
    ∧ (200 : ℤ) ≠ 150 := by
  exact ⟨by decide, by decide, by decide⟩

/-- C8 witness: at a requested batch size of 3 the stored size is 3. -/
theorem c8_witness : setStreamingBatchSize 3 = 3 :=
  ((c8_config_clamps 3).1.2.2 (by decide) (by decide))

/-- C10 (confirmed): after a completed processUserPrompt call on either
parse path, the conversation history has at most 10 entries; the kept
entries are a suffix of the previous history extended with the new
prompt/response pair, and that newest pair is itself kept. -/
theorem c10_history_bounded (h : List String) (p t : String) :
    (pushHistory h p t).length ≤ 10
    ∧ (pushHistory h p t) <:+ (h ++ [p, t])
    ∧ [p, t] <:+ (pushHistory h p t) := by
  unfold pushHistory
  by_cases hlen : 10 < (h ++ [p, t]).length
  · simp only [if_pos hlen]
    refine ⟨?_, ?_, ?_⟩
    · rw [List.length_drop]
      omega
    · exact List.drop_suffix _ _
    · have hk : (h ++ [p, t]).length - 10 ≤ h.length := by
        simp only [List.length_append, List.length_cons, List.length_nil]
        omega
      rw [List.drop_append_of_le_length hk]
      exact List.suffix_append _ _
  · simp only [if_neg hlen]
    have hle : (h ++ [p, t]).length ≤ 10 := by omega
    exact ⟨hle, List.suffix_refl _, List.suffix_append _ _⟩

end AIPainter
